import Mathlib

/-!
Verification of the EweGo GPS acquisition and validation core
(src/Firmware/gps-test/gps_logger.py and src/Firmware/gps-test/validate_ubx.py).

The development shallowly embeds, in Lean:
  * the UBX frame codec (framing, length field, Fletcher checksum) used by
    both programs through the pyubx2 UBXReader,
  * the read/log worker loop and time-correlation sampler of
    GPSLogger.read_worker,
  * the startup sequence GPSLogger.start / GPSLogger.connect_ntrip,
  * the offline validator UBXValidator (validate, _process_message,
    _analyze) and its process exit behaviour.

Machine bytes are modelled as natural numbers with explicit reductions
modulo 256 where the code computes checksum bytes; times are modelled as
rationals (the Python code uses floats for wall-clock seconds and computes
with small exactly-representable quantities).
-/

/-! ## Frame codec

Modelled from the spec: the Frame Codec (pyubx2 UBXReader) is not part of
the repository sources; the definitions below follow the contract the spec
gives for the codec: a two-byte synchronization marker (0xB5 0x62), a class/id
pair, a two-byte little-endian length field, the payload, and a trailing
two-byte checksum computed over class, id, length and payload.  A frame is
emitted only when its checksum validates; the exact original bytes of the
frame are retained unmodified. -/

/-- Fletcher checksum accumulator over a byte list, as specified for UBX:
ck_a := (ck_a + byte) mod 256, ck_b := (ck_b + ck_a) mod 256. -/
def ckAccum (bs : List Nat) : Nat × Nat :=
  bs.foldl (fun c x => (((c.1 + x) % 256), ((c.2 + c.1 + x) % 256))) (0, 0)

/-- A framed message: class, id, payload, and the exact original bytes as
received, including the sync marker, length field and checksum. -/
structure RawFrame where
  classId : Nat
  messageId : Nat
  payload : List Nat
  raw : List Nat
deriving DecidableEq, Repr

/-- Wire encoding of a frame: sync bytes, class, id, little-endian length,
payload, checksum bytes. -/
def encodeFrame (c i : Nat) (p : List Nat) : List Nat :=
  let core := c :: i :: p.length % 256 :: p.length / 256 :: p
  let ck := ckAccum core
  181 :: 98 :: (core ++ [ck.1, ck.2])

/-- The frame a well-formed wire encoding stands for. -/
def mkFrame (c i : Nat) (p : List Nat) : RawFrame :=
  { classId := c, messageId := i, payload := p, raw := encodeFrame c i p }

/-- Scan a byte buffer, emitting every checksum-valid frame in order.  On a
byte that does not open a valid frame the scanner advances one byte; on
truncated input the remaining bytes yield no frame. -/
def parseFrames : List Nat → List RawFrame
  | [] => []
  | 181 :: 98 :: cls :: mid :: l1 :: l2 :: tail =>
    let len := l1 + 256 * l2
    if len + 2 ≤ tail.length then
      let core := cls :: mid :: l1 :: l2 :: tail.take len
      let ck := ckAccum core
      if (tail.drop len).take 2 = [ck.1, ck.2] then
        { classId := cls, messageId := mid, payload := tail.take len,
          raw := 181 :: 98 :: cls :: mid :: l1 :: l2 ::
            (tail.take len ++ [ck.1, ck.2]) } ::
          parseFrames (tail.drop (len + 2))
      else
        parseFrames (98 :: cls :: mid :: l1 :: l2 :: tail)
    else []
  | _ :: rest => parseFrames rest
termination_by bs => bs.length
decreasing_by
  all_goals simp_wf
  all_goals omega

/-- Well-formedness of a (class, id, payload) triple: all components are
bytes and the payload fits the two-byte length field. -/
def FrameWF (t : Nat × Nat × List Nat) : Prop :=
  t.1 < 256 ∧ t.2.1 < 256 ∧ (∀ b ∈ t.2.2, b < 256) ∧ t.2.2.length < 65536

instance : DecidablePred FrameWF := fun t => by
  unfold FrameWF; infer_instance

/-- The byte stream produced by a receiver emitting the given frames
back-to-back. -/
def wireBytes (L : List (Nat × Nat × List Nat)) : List Nat :=
  (L.map (fun t => encodeFrame t.1 t.2.1 t.2.2)).flatten

/-! ## Calendar conversion

Modelled from the spec: both programs construct Python datetime values
from the calendar fields of the receiver inside try/except blocks; an invalid
calendar date raises and the surrounding code swallows the exception.  The
conversion below returns the epoch seconds the constructor would denote,
or none when the constructor would raise. -/

/-- Gregorian leap-year test. -/
def isLeapYear (y : Nat) : Bool :=
  (y % 4 = 0 && y % 100 != 0) || y % 400 = 0

/-- Number of days in a month of the proleptic Gregorian calendar. -/
def daysInMonth (y m : Nat) : Nat :=
  if m = 1 then 31
  else if m = 2 then (if isLeapYear y then 29 else 28)
  else if m = 3 then 31
  else if m = 4 then 30
  else if m = 5 then 31
  else if m = 6 then 30
  else if m = 7 then 31
  else if m = 8 then 31
  else if m = 9 then 30
  else if m = 10 then 31
  else if m = 11 then 30
  else 31

/-- Days from 1970-01-01 to the given civil date (valid Gregorian date with
year at least 1 assumed), via the standard era decomposition. -/
def daysFromCivil (y m d : Nat) : Int :=
  let yAdj := if m ≤ 2 then y - 1 else y
  let era := yAdj / 400
  let yoe := yAdj % 400
  let mp := if 2 < m then m - 3 else m + 9
  let doy := (153 * mp + 2) / 5 + (d - 1)
  let doe := yoe * 365 + yoe / 4 - yoe / 100 + doy
  (era * 146097 + doe : Int) - 719468

/-- Epoch seconds of datetime(y, mo, d, h, mi, s) (UTC), or none when the
constructor would raise on an out-of-range field. -/
def calToEpoch (y mo d h mi s : Nat) : Option Int :=
  if 1 ≤ y ∧ y ≤ 9999 ∧ 1 ≤ mo ∧ mo ≤ 12 ∧ 1 ≤ d ∧ d ≤ daysInMonth y mo ∧
      h ≤ 23 ∧ mi ≤ 59 ∧ s ≤ 59 then
    some (daysFromCivil y mo d * 86400 + (h * 3600 + mi * 60 + s : Nat))
  else none

/-! ## Read/log worker (gps_logger.py, GPSLogger.read_worker)

One loop iteration of the worker is a pure step over the observable state:
it receives the wall-clock time, the raw frame bytes returned by the codec
(empty on a read timeout) and the decoded view of the frame (none when
payload decoding failed). -/

/-- Fields of a decoded NAV-PVT message used by read_worker. -/
structure NavPvt where
  year : Nat
  month : Nat
  day : Nat
  hour : Nat
  minute : Nat
  second : Nat
  nano : Int
  fixType : Nat
  carrSoln : Nat
  numSV : Nat
  lat : ℚ
  lon : ℚ
  height : ℚ
deriving DecidableEq, Repr

/-- Epoch seconds (UTC) of the datetime read_worker builds from a NAV-PVT
message, with microsecond := int(nano / 1000) (truncation toward zero);
none when the constructor would raise, matching the swallowed exception in
the sampler block. -/
def navPvtUtc (m : NavPvt) : Option ℚ :=
  let usec : Int := m.nano.tdiv 1000
  match calToEpoch m.year m.month m.day m.hour m.minute m.second with
  | some base =>
    if 0 ≤ usec ∧ usec < 1000000 then some ((base : ℚ) + (usec : ℚ) / 1000000)
    else none
  | none => none

/-- Epoch seconds of the GPS epoch datetime(1980, 1, 6). -/
def gpsEpochSecs : Int := daysFromCivil 1980 1 6 * 86400

/-- Truncation toward zero of a rational, as Python int() applied to a
nonintegral number. -/
def ratTrunc (q : ℚ) : Int := if 0 ≤ q then ⌊q⌋ else ⌈q⌉

/-- One row of the time-correlation log (TimeSync.log). -/
structure TimeSyncRow where
  systemTime : ℚ
  gpsTime : ℚ
  gpsWeek : Int
  gpsTow : ℚ
  offsetSeconds : ℚ
  numSV : Nat
deriving DecidableEq, Repr

/-- Decoded view of a frame as seen by read_worker: either a NAV-PVT
message or some other successfully parsed message. -/
inductive ParsedMsg where
  | pvt (m : NavPvt)
  | otherMsg
deriving DecidableEq, Repr

/-- Inputs of one iteration: the sampled system time, the raw bytes
returned by the codec (empty when nothing was read) and the parse result
(none when pyubx2 could not parse the payload). -/
structure ReadEvent where
  sysTime : ℚ
  raw : List Nat
  parsed : Option ParsedMsg
deriving DecidableEq, Repr

/-- Observable state of the read/log worker: the bytes of the primary log, the
shared statistics fields, the worker-local counters and the
time-correlation rows (most recent first). -/
structure LoggerState where
  logfile : List Nat
  messages : Nat
  bytes_logged : Nat
  last_fix_type : Nat
  last_carr_soln : Nat
  last_num_sv : Nat
  last_lat : ℚ
  last_lon : ℚ
  last_height : ℚ
  time_offset : ℚ
  last_timesync_log : ℚ
  parse_errors : Nat
  total_reads : Nat
  timesync_rows : List TimeSyncRow
deriving DecidableEq, Repr

/-- State at worker start (all counters zero, empty log files). -/
def initLoggerState : LoggerState :=
  { logfile := [], messages := 0, bytes_logged := 0, last_fix_type := 0,
    last_carr_soln := 0, last_num_sv := 0, last_lat := 0, last_lon := 0,
    last_height := 0, time_offset := 0, last_timesync_log := 0,
    parse_errors := 0, total_reads := 0, timesync_rows := [] }

/-- One iteration of GPSLogger.read_worker: append the raw bytes to the
primary log and bump counters; on a decoded NAV-PVT update the fix
snapshot and, when ten seconds have passed since the previous
time-correlation sample, convert the message time and append a sample; on
a parse failure bump the parse-error counter. -/
def readStep (s : LoggerState) (e : ReadEvent) : LoggerState :=
  let s := { s with total_reads := s.total_reads + 1 }
  if e.raw = [] then s
  else
    let s := { s with logfile := s.logfile ++ e.raw,
                      bytes_logged := s.bytes_logged + e.raw.length,
                      messages := s.messages + 1 }
    match e.parsed with
    | some (ParsedMsg.pvt m) =>
      let s := { s with last_fix_type := m.fixType, last_num_sv := m.numSV,
                        last_lat := m.lat, last_lon := m.lon,
                        last_height := m.height / 1000,
                        last_carr_soln := m.carrSoln }
      if 10 ≤ e.sysTime - s.last_timesync_log then
        match navPvtUtc m with
        | some g =>
          let delta := g - (gpsEpochSecs : ℚ)
          let row : TimeSyncRow :=
            { systemTime := e.sysTime, gpsTime := g,
              gpsWeek := ratTrunc (delta / 604800),
              gpsTow := delta - 604800 * ((⌊delta / 604800⌋ : Int) : ℚ),
              offsetSeconds := e.sysTime - g, numSV := m.numSV }
          { s with timesync_rows := row :: s.timesync_rows,
                   time_offset := e.sysTime - g,
                   last_timesync_log := e.sysTime }
        | none => s
      else s
    | some ParsedMsg.otherMsg => s
    | none => { s with parse_errors := s.parse_errors + 1 }

/-- The read/log worker over a whole session of iterations. -/
def processEvents (s : LoggerState) (es : List ReadEvent) : LoggerState :=
  es.foldl readStep s

/-- Adjacent time-correlation samples (most recent first) are at least the
ten-second sampling interval apart. -/
def sampleSpacingOK : List TimeSyncRow → Prop
  | a :: b :: t => b.systemTime + 10 ≤ a.systemTime ∧ sampleSpacingOK (b :: t)
  | _ => True

/-- The most recent sample, when one exists, is no later than the recorded
time of the last sample. -/
def headLe (s : LoggerState) : Prop :=
  match s.timesync_rows with
  | [] => True
  | r :: _ => r.systemTime ≤ s.last_timesync_log

/-! ## Startup sequence (gps_logger.py, GPSLogger.start / connect_ntrip)

The outcome of each fallible startup action is an oracle input; the model
mirrors the control flow of GPSLogger.start. -/

/-- Outcomes of the environment-dependent startup actions. -/
structure StartEnv where
  serialOk : Bool
  ntripConfigured : Bool
  ntripConnectOk : Bool
  logfileOk : Bool
deriving DecidableEq, Repr

/-- GPSLogger.connect_ntrip: returns (result, whether self.ntrip is now
set).  Without a configuration it reports success with no client; with one
it creates the client object first and then returns the handshake
outcome, so the client object exists even when the handshake failed. -/
def connectNtrip (env : StartEnv) : Bool × Bool :=
  if env.ntripConfigured = false then (true, false)
  else (env.ntripConnectOk, true)

/-- What GPSLogger.start did: its return value, whether the NTRIP client
object exists, which worker threads were started, and whether the pipeline
reached the logging state (running := True). -/
structure StartResult where
  ok : Bool
  ntripSet : Bool
  ntripThreadStarted : Bool
  readThreadStarted : Bool
  reachedLogging : Bool
deriving DecidableEq, Repr

/-- GPSLogger.start: serial failure returns False at once; the NTRIP
handshake result only selects a warning message; log-file failure returns
False; otherwise running is set and the NTRIP worker thread is started
exactly when self.ntrip is set, followed by the read worker thread. -/
def startLogger (env : StartEnv) : StartResult :=
  if env.serialOk = false then
    { ok := false, ntripSet := false, ntripThreadStarted := false,
      readThreadStarted := false, reachedLogging := false }
  else
    let cn := connectNtrip env
    if env.logfileOk = false then
      { ok := false, ntripSet := cn.2, ntripThreadStarted := false,
        readThreadStarted := false, reachedLogging := false }
    else
      { ok := true, ntripSet := cn.2, ntripThreadStarted := cn.2,
        readThreadStarted := true, reachedLogging := true }

/-! ## Log validator (validate_ubx.py, UBXValidator)

The validator consumes the parsed messages of the replayed log.  A parsed
message is classified by its identity string; NAV-PVT messages carry the
calendar fields, optional fix-type and carrier-solution attributes and the
satellite count; RXM-RAWX messages carry their measurement count. -/

/-- Fields of a NAV-PVT message used by UBXValidator. -/
structure PvtMsg where
  year : Nat
  month : Nat
  day : Nat
  hour : Nat
  minute : Nat
  second : Nat
  fixType : Option Nat
  carrSoln : Option Nat
  numSV : Nat
deriving DecidableEq, Repr

/-- A parsed UBX message as classified by UBXValidator. -/
inductive UBXMsg where
  | navPvt (m : PvtMsg)
  | rxmRawx (numMeas : Nat)
  | rxmSfrbx
  | navStatus
  | navSat
  | otherMsg (ident : String)
deriving DecidableEq, Repr

/-- The identity string of a message (pyubx2 msg.identity). -/
def identity : UBXMsg → String
  | UBXMsg.navPvt _ => "NAV-PVT"
  | UBXMsg.rxmRawx _ => "RXM-RAWX"
  | UBXMsg.rxmSfrbx => "RXM-SFRBX"
  | UBXMsg.navStatus => "NAV-STATUS"
  | UBXMsg.navSat => "NAV-SAT"
  | UBXMsg.otherMsg s => s

/-- The distinct diagnostics UBXValidator._analyze can append (each stands
for one of its message strings). -/
inductive VIssue where
  | noRawx
  | noSfrbx
  | navPvtRateLow
  | rxmRawxRateLow
  | lowSatellites
deriving DecidableEq, Repr

/-- Increment a counter in a histogram (defaultdict(int) update). -/
def bumpKey {α : Type} [DecidableEq α] (k : α) : List (α × Nat) → List (α × Nat)
  | [] => [(k, 1)]
  | (k2, n) :: t => if k2 = k then (k2, n + 1) :: t else (k2, n) :: bumpKey k t

/-- The statistics dictionary of UBXValidator. -/
structure VStats where
  total_messages : Nat
  message_types : List (String × Nat)
  first_timestamp : Option Int
  last_timestamp : Option Int
  nav_pvt_count : Nat
  rxm_rawx_count : Nat
  rxm_sfrbx_count : Nat
  nav_status_count : Nat
  nav_sat_count : Nat
  max_satellites : Nat
  fix_types : List (Nat × Nat)
  carrier_solution_types : List (Nat × Nat)
  errors : List VIssue
  warnings : List VIssue
deriving DecidableEq, Repr

/-- Statistics at validator construction. -/
def initVStats : VStats :=
  { total_messages := 0, message_types := [], first_timestamp := none,
    last_timestamp := none, nav_pvt_count := 0, rxm_rawx_count := 0,
    rxm_sfrbx_count := 0, nav_status_count := 0, nav_sat_count := 0,
    max_satellites := 0, fix_types := [], carrier_solution_types := [],
    errors := [], warnings := [] }

/-- UBXValidator._process_message. -/
def processMessage (st : VStats) (m : UBXMsg) : VStats :=
  let st := { st with message_types := bumpKey (identity m) st.message_types }
  match m with
  | UBXMsg.navPvt p =>
    let st := { st with nav_pvt_count := st.nav_pvt_count + 1 }
    let st :=
      match calToEpoch p.year p.month p.day p.hour p.minute p.second with
      | some ts =>
        { st with first_timestamp := some (st.first_timestamp.getD ts),
                  last_timestamp := some ts }
      | none => st
    let st :=
      match p.fixType with
      | some ft => { st with fix_types := bumpKey ft st.fix_types }
      | none => st
    let st :=
      match p.carrSoln with
      | some cs =>
        { st with carrier_solution_types := bumpKey cs st.carrier_solution_types }
      | none => st
    if st.max_satellites < p.numSV then { st with max_satellites := p.numSV } else st
  | UBXMsg.rxmRawx numMeas =>
    let st := { st with rxm_rawx_count := st.rxm_rawx_count + 1 }
    if st.max_satellites < numMeas then { st with max_satellites := numMeas } else st
  | UBXMsg.rxmSfrbx => { st with rxm_sfrbx_count := st.rxm_sfrbx_count + 1 }
  | UBXMsg.navStatus => { st with nav_status_count := st.nav_status_count + 1 }
  | UBXMsg.navSat => { st with nav_sat_count := st.nav_sat_count + 1 }
  | UBXMsg.otherMsg _ => st

/-- One iteration of the parse loop in UBXValidator.validate: count the
message, then process it. -/
def stepMsg (st : VStats) (m : UBXMsg) : VStats :=
  processMessage { st with total_messages := st.total_messages + 1 } m

/-- The parse loop over a list of messages from a given state. -/
def processFrom (st : VStats) (msgs : List UBXMsg) : VStats :=
  msgs.foldl stepMsg st

/-- The parse loop over the whole replayed log. -/
def processAll (msgs : List UBXMsg) : VStats :=
  processFrom initVStats msgs

/-- Whether a message is a raw-measurement (RXM-RAWX) message. -/
def isRawx : UBXMsg → Bool
  | UBXMsg.rxmRawx _ => true
  | _ => false

/-- Whether a message is a broadcast-ephemeris (RXM-SFRBX) message. -/
def isSfrbx : UBXMsg → Bool
  | UBXMsg.rxmSfrbx => true
  | _ => false

/-- Whether a message is a navigation (NAV-PVT) message. -/
def isPvt : UBXMsg → Bool
  | UBXMsg.navPvt _ => true
  | _ => false

/-- Number of RXM-RAWX messages in a log. -/
def countRawx (msgs : List UBXMsg) : Nat := msgs.countP isRawx

/-- Number of NAV-PVT messages in a log. -/
def countPvt (msgs : List UBXMsg) : Nat := msgs.countP isPvt

/-- Number of RXM-SFRBX messages in a log. -/
def countSfrbx (msgs : List UBXMsg) : Nat := msgs.countP isSfrbx

/-- Satellite-count contribution of one message to the high-water mark:
NAV-PVT contributes numSV, RXM-RAWX contributes numMeas. -/
def satContrib : UBXMsg → Nat
  | UBXMsg.navPvt p => p.numSV
  | UBXMsg.rxmRawx n => n
  | _ => 0

/-- The satellite high-water mark over a log, from both NAV-PVT satellite
counts and RXM-RAWX measurement counts. -/
def maxSatObserved (msgs : List UBXMsg) : Nat :=
  msgs.foldl (fun a m => Nat.max a (satContrib m)) 0

/-- Modelled from the words of the claim: the satellite high-water mark taken
over navigation-type (NAV-PVT) frames only. -/
def maxSatFromNavPvt (msgs : List UBXMsg) : Nat :=
  msgs.foldl
    (fun a m =>
      match m with
      | UBXMsg.navPvt p => Nat.max a p.numSV
      | _ => a) 0

/-- First rule block of UBXValidator._analyze: required message types. -/
def checkRequired (st : VStats) : VStats :=
  let st :=
    if st.rxm_rawx_count = 0 then { st with errors := st.errors ++ [VIssue.noRawx] }
    else st
  if st.rxm_sfrbx_count = 0 then { st with errors := st.errors ++ [VIssue.noSfrbx] }
  else st

/-- Second rule block of UBXValidator._analyze: message rates over the
navigation time span (count / duration compared against 9.5 Hz). -/
def checkRates (st : VStats) : VStats :=
  match st.first_timestamp, st.last_timestamp with
  | some f, some l =>
    let duration : Int := l - f
    if 0 < duration then
      let st :=
        if (st.nav_pvt_count : ℚ) / (duration : ℚ) < 19 / 2 then
          { st with warnings := st.warnings ++ [VIssue.navPvtRateLow] }
        else st
      if (st.rxm_rawx_count : ℚ) / (duration : ℚ) < 19 / 2 then
        { st with warnings := st.warnings ++ [VIssue.rxmRawxRateLow] }
      else st
    else st
  | _, _ => st

/-- Third rule block of UBXValidator._analyze: satellite high-water mark
below 5. -/
def checkSats (st : VStats) : VStats :=
  if st.max_satellites < 5 then
    { st with warnings := st.warnings ++ [VIssue.lowSatellites] }
  else st

/-- UBXValidator._analyze: the three rule blocks in source order. -/
def analyze (st : VStats) : VStats :=
  checkSats (checkRates (checkRequired st))

/-- The warnings the rate block appends, as a function of the incoming
statistics. -/
def rateWs (st : VStats) : List VIssue :=
  match st.first_timestamp, st.last_timestamp with
  | some f, some l =>
    if 0 < l - f then
      (if (st.nav_pvt_count : ℚ) / ((l - f : Int) : ℚ) < 19 / 2 then
        [VIssue.navPvtRateLow] else []) ++
      (if (st.rxm_rawx_count : ℚ) / ((l - f : Int) : ℚ) < 19 / 2 then
        [VIssue.rxmRawxRateLow] else [])
    else []
  | _, _ => []

/-- How a run of UBXValidator.validate ends: a structural failure (missing
or empty file), an exception while parsing, or a completed pass with the
analyzed statistics. -/
inductive VOutcome where
  | fileNotFound
  | emptyFile
  | parseFail
  | completed (st : VStats)
deriving DecidableEq, Repr

/-- UBXValidator.validate: file checks, the parse loop (aborted by an
exception when one occurs), then analysis.  The message list is the
sequence the codec yields up to the end of input or the exception. -/
def runValidate (fileExists : Bool) (fileSize : Nat) (msgs : List UBXMsg)
    (parseExc : Bool) : VOutcome :=
  if fileExists = false then VOutcome.fileNotFound
  else if fileSize = 0 then VOutcome.emptyFile
  else if parseExc then VOutcome.parseFail
  else VOutcome.completed (analyze (processAll msgs))

/-- The boolean UBXValidator.validate returns: True exactly on a completed
pass with an empty error list. -/
def validateResult : VOutcome → Bool
  | VOutcome.completed st => st.errors.isEmpty
  | _ => false

/-- The process exit code chosen by main: 0 when validate returned True,
1 otherwise. -/
def exitCode (b : Bool) : Nat := if b then 0 else 1

/-! ## Concrete inputs used by the examples in the claims -/

/-- A NAV-PVT message with the given epoch-second offset (seconds after
1970-01-01 00:00, below one day) and satellite count. -/
def pvtAt (s : Nat) (sv : Nat) : UBXMsg :=
  UBXMsg.navPvt
    { year := 1970, month := 1, day := 1, hour := s / 3600,
      minute := s % 3600 / 60, second := s % 60, fixType := some 3,
      carrSoln := some 0, numSV := sv }

/-- Synthetic log for the C3 example: five ephemeris frames, no
raw-measurement frame. -/
def c3msgs : List UBXMsg :=
  [UBXMsg.rxmSfrbx, UBXMsg.rxmSfrbx, UBXMsg.rxmSfrbx, UBXMsg.rxmSfrbx,
   UBXMsg.rxmSfrbx]

/-- Synthetic log for the C5 counterexample: one NAV-PVT with three
satellites, one RXM-RAWX with ten measurements, one RXM-SFRBX. -/
def c5msgs : List UBXMsg :=
  [pvtAt 0 3, UBXMsg.rxmRawx 10, UBXMsg.rxmSfrbx]

/-- Synthetic log for the C6 example: both required types present, 700
raw-measurement frames over a 100-second navigation span (7 Hz). -/
def c6msgs : List UBXMsg :=
  pvtAt 0 8 :: (List.replicate 700 (UBXMsg.rxmRawx 8) ++
    [UBXMsg.rxmSfrbx, pvtAt 100 8])

/-- Small log with a 10-second navigation span, for instantiating the C6
rate rule. -/
def c6small : List UBXMsg :=
  [pvtAt 0 8, UBXMsg.rxmRawx 8, UBXMsg.rxmSfrbx, pvtAt 10 8]

/-- A decoded NAV-PVT fix with a valid calendar date, for the C4 example. -/
def c4msg : NavPvt :=
  { year := 2026, month := 10, day := 12, hour := 0, minute := 0,
    second := 0, nano := 0, fixType := 3, carrSoln := 0, numSV := 8,
    lat := 0, lon := 0, height := 0 }

/-- The read iteration of the C4 example at 100 ms tick number i: a decoded
NAV-PVT fix arriving at time i / 10 seconds. -/
def c4f (i : Nat) : ReadEvent :=
  { sysTime := (i : ℚ) / 10, raw := [181], parsed := some (ParsedMsg.pvt c4msg) }

/-- Fixes arriving every 100 ms for 10.5 seconds: 105 read iterations at
times 0.0, 0.1, ..., 10.4 seconds, each delivering a decoded NAV-PVT. -/
def c4events : List ReadEvent :=
  (List.range 105).map c4f

/-- Environment for the C8 witness: the serial port cannot be opened. -/
def c8envA : StartEnv :=
  { serialOk := false, ntripConfigured := false, ntripConnectOk := false,
    logfileOk := false }

/-- Environment for the C8 witness: serial and log file open, the NTRIP
handshake fails. -/
def c8envB : StartEnv :=
  { serialOk := true, ntripConfigured := true, ntripConnectOk := false,
    logfileOk := true }

/-- A read event used to instantiate the interval guard of the sampler. -/
def c4ev : ReadEvent :=
  { sysTime := 12, raw := [181], parsed := some (ParsedMsg.pvt c4msg) }

/-- Three well-formed frames (class, id, payload) for the C1 example. -/
def c1triples : List (Nat × Nat × List Nat) :=
  [(1, 2, [10, 20]), (1, 7, []), (2, 19, [5])]

/-- The read events of a live session over the three-frame stream: the raw
bytes of each framed message in arrival order. -/
def c1events : List ReadEvent :=
  (parseFrames (wireBytes c1triples)).map
    (fun f => { sysTime := 0, raw := f.raw, parsed := none })

/-- A read iteration whose payload fails to decode, for the C9 witness. -/
def c9ev : ReadEvent := { sysTime := 0, raw := [181, 0], parsed := none }

theorem parseFrames_nil : parseFrames [] = [] := by
  rw [parseFrames.eq_def]

theorem parseFrames_encode (c i : Nat) (p rest : List Nat) :
    parseFrames (encodeFrame c i p ++ rest) = mkFrame c i p :: parseFrames rest := by
  rw [parseFrames.eq_def]
  simp only [encodeFrame, mkFrame, List.cons_append, List.append_assoc]
  have hlen : p.length % 256 + 256 * (p.length / 256) = p.length := Nat.mod_add_div _ _
  rw [hlen]
  set a := (ckAccum (c :: i :: p.length % 256 :: p.length / 256 :: p)).1 with ha
  set b := (ckAccum (c :: i :: p.length % 256 :: p.length / 256 :: p)).2 with hb
  have ht : List.take p.length (p ++ a :: b :: ([] ++ rest)) = p := List.take_left p _
  have hd : List.drop p.length (p ++ a :: b :: ([] ++ rest)) = a :: b :: ([] ++ rest) :=
    List.drop_left p _
  have hd2 : List.drop (p.length + 2) (p ++ a :: b :: ([] ++ rest)) = [] ++ rest := by
    have h1 : p ++ a :: b :: ([] ++ rest) = (p ++ [a, b]) ++ ([] ++ rest) := by simp
    have h2 : p.length + 2 = (p ++ [a, b]).length := by simp
    rw [h1, h2]
    exact List.drop_left _ _
  rw [ht, hd, hd2]
  rw [if_pos (by simp)]
  rw [if_pos (by simp [List.take])]
  simp

theorem parseFrames_wire (L : List (Nat × Nat × List Nat)) :
    parseFrames (wireBytes L) = L.map (fun t => mkFrame t.1 t.2.1 t.2.2) := by
  induction L with
  | nil => simpa [wireBytes] using parseFrames_nil
  | cons t L ih =>
    simp only [wireBytes, List.map_cons, List.flatten_cons]
    rw [parseFrames_encode]
    simpa [wireBytes] using congrArg (mkFrame t.1 t.2.1 t.2.2 :: ·) ih

/-! ### Read/log worker lemmas -/

theorem readStep_logfile (s : LoggerState) (e : ReadEvent) :
    (readStep s e).logfile = s.logfile ++ e.raw := by
  by_cases h : e.raw = []
  · simp [readStep, h]
  · rcases hp : e.parsed with _ | pm
    · simp [readStep, h, hp]
    · cases pm with
      | otherMsg => simp [readStep, h, hp]
      | pvt m =>
        by_cases ht : (10:ℚ) ≤ e.sysTime - s.last_timesync_log
        · rcases hg : navPvtUtc m with _ | g
          · simp [readStep, h, hp, ht, hg]
          · simp [readStep, h, hp, ht, hg]
        · simp [readStep, h, hp, ht]

theorem processEvents_logfile (es : List ReadEvent) (s : LoggerState) :
    (processEvents s es).logfile = s.logfile ++ (es.map (fun e => e.raw)).flatten := by
  induction es generalizing s with
  | nil => simp [processEvents]
  | cons e t ih =>
    have hstep : processEvents s (e :: t) = processEvents (readStep s e) t := rfl
    rw [hstep, ih, readStep_logfile]
    simp

theorem readStep_noFire (s : LoggerState) (e : ReadEvent)
    (h : e.sysTime - s.last_timesync_log < 10) :
    (readStep s e).timesync_rows = s.timesync_rows ∧
    (readStep s e).last_timesync_log = s.last_timesync_log := by
  have ht : ¬ (10:ℚ) ≤ e.sysTime - s.last_timesync_log := not_le.mpr h
  by_cases hr : e.raw = []
  · simp [readStep, hr]
  · rcases hp : e.parsed with _ | pm
    · simp [readStep, hr, hp]
    · cases pm with
      | otherMsg => simp [readStep, hr, hp]
      | pvt m => simp [readStep, hr, hp, ht]

theorem readStep_fire (s : LoggerState) (e : ReadEvent) (m : NavPvt) (g : ℚ)
    (hr : e.raw ≠ []) (hp : e.parsed = some (ParsedMsg.pvt m))
    (ht : 10 ≤ e.sysTime - s.last_timesync_log) (hg : navPvtUtc m = some g) :
    (readStep s e).timesync_rows.length = s.timesync_rows.length + 1 ∧
    (readStep s e).last_timesync_log = e.sysTime := by
  simp [readStep, hr, hp, ht, hg]

theorem processEvents_noFire (es : List ReadEvent) (s : LoggerState)
    (h : ∀ e ∈ es, e.sysTime - s.last_timesync_log < 10) :
    (processEvents s es).timesync_rows = s.timesync_rows ∧
    (processEvents s es).last_timesync_log = s.last_timesync_log := by
  induction es generalizing s with
  | nil => exact ⟨rfl, rfl⟩
  | cons e t ih =>
    have he := readStep_noFire s e (h e (List.mem_cons_self e t))
    have ht : ∀ x ∈ t, x.sysTime - (readStep s e).last_timesync_log < 10 := by
      intro x hx
      rw [he.2]
      exact h x (List.mem_cons_of_mem e hx)
    have := ih (readStep s e) ht
    exact ⟨by rw [show processEvents s (e :: t) = processEvents (readStep s e) t from rfl,
            this.1, he.1],
          by rw [show processEvents s (e :: t) = processEvents (readStep s e) t from rfl,
            this.2, he.2]⟩

theorem readStep_inv (s : LoggerState) (e : ReadEvent)
    (h1 : sampleSpacingOK s.timesync_rows) (h2 : headLe s) :
    sampleSpacingOK (readStep s e).timesync_rows ∧ headLe (readStep s e) := by
  by_cases hr : e.raw = []
  · exact ⟨by simpa [readStep, hr] using h1, by simpa [readStep, hr, headLe] using h2⟩
  · rcases hp : e.parsed with _ | pm
    · exact ⟨by simpa [readStep, hr, hp] using h1, by simpa [readStep, hr, hp, headLe] using h2⟩
    · cases pm with
      | otherMsg =>
        exact ⟨by simpa [readStep, hr, hp] using h1,
               by simpa [readStep, hr, hp, headLe] using h2⟩
      | pvt m =>
        by_cases ht : (10:ℚ) ≤ e.sysTime - s.last_timesync_log
        · rcases hg : navPvtUtc m with _ | g
          · exact ⟨by simpa [readStep, hr, hp, ht, hg] using h1,
                   by simpa [readStep, hr, hp, ht, hg, headLe] using h2⟩
          · constructor
            · have hrows : (readStep s e).timesync_rows =
                  { systemTime := e.sysTime, gpsTime := g,
                    gpsWeek := ratTrunc ((g - (gpsEpochSecs : ℚ)) / 604800),
                    gpsTow := g - (gpsEpochSecs : ℚ) -
                      604800 * ((⌊(g - (gpsEpochSecs : ℚ)) / 604800⌋ : Int) : ℚ),
                    offsetSeconds := e.sysTime - g, numSV := m.numSV } ::
                    s.timesync_rows := by
                simp [readStep, hr, hp, ht, hg]
              rw [hrows]
              cases hrows2 : s.timesync_rows with
              | nil => simp [sampleSpacingOK]
              | cons r t =>
                have hle : r.systemTime ≤ s.last_timesync_log := by
                  simpa [headLe, hrows2] using h2
                refine ⟨by linarith, ?_⟩
                rw [hrows2] at h1
                exact h1
            · simp [readStep, hr, hp, ht, hg, headLe]
        · exact ⟨by simpa [readStep, hr, hp, ht] using h1,
                 by simpa [readStep, hr, hp, ht, headLe] using h2⟩

theorem processEvents_inv (es : List ReadEvent) (s : LoggerState)
    (h1 : sampleSpacingOK s.timesync_rows) (h2 : headLe s) :
    sampleSpacingOK (processEvents s es).timesync_rows ∧ headLe (processEvents s es) := by
  induction es generalizing s with
  | nil => exact ⟨h1, h2⟩
  | cons e t ih =>
    have := readStep_inv s e h1 h2
    exact ih (readStep s e) this.1 this.2

theorem c4_count : (processEvents initLoggerState c4events).timesync_rows.length = 1 := by
  have h105 : List.range 105 = List.range 100 ++ [100, 101, 102, 103, 104] := by decide
  have hsplit : c4events = (List.range 100).map c4f ++
      [c4f 100, c4f 101, c4f 102, c4f 103, c4f 104] := by
    rw [c4events, h105, List.map_append]
    rfl
  have happ : processEvents initLoggerState c4events =
      processEvents (processEvents initLoggerState ((List.range 100).map c4f))
        [c4f 100, c4f 101, c4f 102, c4f 103, c4f 104] := by
    rw [hsplit]
    exact List.foldl_append _ _ _ _
  have hcondA : ∀ e ∈ (List.range 100).map c4f,
      e.sysTime - initLoggerState.last_timesync_log < 10 := by
    intro e he
    rw [List.mem_map] at he
    obtain ⟨i, hi, rfl⟩ := he
    rw [List.mem_range] at hi
    show (i : ℚ) / 10 - initLoggerState.last_timesync_log < 10
    have h1 : ((i : ℚ)) < 100 := by exact_mod_cast hi
    have h2 : initLoggerState.last_timesync_log = 0 := rfl
    rw [h2, sub_zero, div_lt_iff₀ (by norm_num : (0:ℚ) < 10)]
    linarith
  have hA := processEvents_noFire ((List.range 100).map c4f) initLoggerState hcondA
  set sA := processEvents initLoggerState ((List.range 100).map c4f) with hsA
  have hArows : sA.timesync_rows = [] := by rw [hA.1]; rfl
  have hAlast : sA.last_timesync_log = 0 := by rw [hA.2]; rfl
  obtain ⟨g, hg⟩ : ∃ g, navPvtUtc c4msg = some g := ⟨_, rfl⟩
  have ht : (10 : ℚ) ≤ (c4f 100).sysTime - sA.last_timesync_log := by
    show (10 : ℚ) ≤ ((100 : Nat) : ℚ) / 10 - sA.last_timesync_log
    rw [hAlast]
    norm_num
  have hfire := readStep_fire sA (c4f 100) c4msg g (by simp [c4f]) rfl ht hg
  set s1 := readStep sA (c4f 100) with hs1
  have h1rows : s1.timesync_rows.length = 1 := by
    rw [hfire.1, hArows]
    rfl
  have h1last : s1.last_timesync_log = ((100 : Nat) : ℚ) / 10 := hfire.2
  have hcondC : ∀ e ∈ [c4f 101, c4f 102, c4f 103, c4f 104],
      e.sysTime - s1.last_timesync_log < 10 := by
    intro e he
    rw [h1last]
    fin_cases he <;> norm_num [c4f]
  have hC := processEvents_noFire [c4f 101, c4f 102, c4f 103, c4f 104] s1 hcondC
  rw [happ]
  show (processEvents (readStep sA (c4f 100))
    [c4f 101, c4f 102, c4f 103, c4f 104]).timesync_rows.length = 1
  rw [← hs1, hC.1, h1rows]

/-! ### Claim theorems for the acquisition side -/

/-- C1: the primary log written by the read/log worker over a well-formed
frame stream is bit-for-bit the concatenation of the original bytes of
every frame, in arrival order, and replaying those bytes through the frame
codec reproduces the frame sequence observed live. -/
theorem c1_log_roundtrip (L : List (Nat × Nat × List Nat))
    (_hwf : ∀ t ∈ L, FrameWF t) (es : List ReadEvent)
    (hes : es.map (fun e => e.raw) = (parseFrames (wireBytes L)).map (fun f => f.raw)) :
    (processEvents initLoggerState es).logfile = wireBytes L ∧
    parseFrames (processEvents initLoggerState es).logfile = parseFrames (wireBytes L) ∧
    (parseFrames (wireBytes L)).map (fun f => f.raw) =
      L.map (fun t => encodeFrame t.1 t.2.1 t.2.2) := by
  have hw := parseFrames_wire L
  have h1 : (processEvents initLoggerState es).logfile = wireBytes L := by
    rw [processEvents_logfile, hes, hw]
    show [] ++ ((L.map (fun t => mkFrame t.1 t.2.1 t.2.2)).map (fun f => f.raw)).flatten =
      wireBytes L
    rw [List.nil_append, List.map_map]
    rfl
  refine ⟨h1, by rw [h1], ?_⟩
  rw [hw, List.map_map]
  rfl

theorem c1_log_roundtrip_witness :
    (∀ t ∈ c1triples, FrameWF t) ∧
    ((processEvents initLoggerState c1events).logfile = wireBytes c1triples ∧
     parseFrames (processEvents initLoggerState c1events).logfile =
       parseFrames (wireBytes c1triples) ∧
     (parseFrames (wireBytes c1triples)).map (fun f => f.raw) =
       c1triples.map (fun t => encodeFrame t.1 t.2.1 t.2.2)) :=
  ⟨by decide,
   c1_log_roundtrip c1triples (by decide) c1events (by simp [c1events, List.map_map])⟩

/-- C4: the time-correlation sampler fires only when at least the
ten-second sampling interval has elapsed since the previous sample,
consecutive samples of any session are at least the interval apart, and
the 105 fixes of the 100 ms / 10.5 s example produce exactly one sample. -/
theorem c4_sampler_interval (s : LoggerState) (e : ReadEvent) (es : List ReadEvent)
    (hgrow : (readStep s e).timesync_rows.length ≠ s.timesync_rows.length) :
    10 ≤ e.sysTime - s.last_timesync_log ∧
    sampleSpacingOK (processEvents initLoggerState es).timesync_rows ∧
    (processEvents initLoggerState c4events).timesync_rows.length = 1 := by
  refine ⟨?_, ?_, c4_count⟩
  · by_contra h
    rw [not_le] at h
    exact hgrow (by rw [(readStep_noFire s e h).1])
  · exact (processEvents_inv es initLoggerState trivial trivial).1

theorem c4_sampler_interval_witness :
    10 ≤ c4ev.sysTime - initLoggerState.last_timesync_log ∧
    sampleSpacingOK (processEvents initLoggerState []).timesync_rows ∧
    (processEvents initLoggerState c4events).timesync_rows.length = 1 :=
  c4_sampler_interval initLoggerState c4ev [] (by with_unfolding_all decide)

/-- C7 counterexample: it is not the case that a failed NTRIP handshake
prevents the correction relay worker thread from being started; with a
configured correction source, an opened serial port and an opened log
file, GPSLogger.start starts the relay thread even though connect
failed. -/
theorem c7_counterexample :
    ¬ (∀ env : StartEnv, env.ntripConnectOk = false →
        (startLogger env).ntripThreadStarted = false) := by
  intro h
  have := h { serialOk := true, ntripConfigured := true, ntripConnectOk := false,
              logfileOk := true } rfl
  simp [startLogger, connectNtrip] at this

/-- C7 (amended): the correction relay worker thread is started exactly
when a correction source is configured and the serial port and log file
opened; the outcome of the connect handshake does not matter, because
connect_ntrip creates the client object before the handshake and start
only tests whether the object exists. -/
theorem c7_relay_worker_start (env : StartEnv) :
    (startLogger env).ntripThreadStarted = true ↔
      env.serialOk = true ∧ env.ntripConfigured = true ∧ env.logfileOk = true := by
  rcases env with ⟨s, c, k, l⟩
  cases s <;> cases c <;> cases k <;> cases l <;> simp [startLogger, connectNtrip]

/-- C8: failure to open the serial port is fatal (start returns failure
and the pipeline never reaches the logging state), while a failed NTRIP
handshake is non-fatal (start still succeeds and the pipeline reaches the
logging state). -/
theorem c8_serial_fatal_ntrip_nonfatal (env : StartEnv) :
    (env.serialOk = false →
      (startLogger env).ok = false ∧ (startLogger env).reachedLogging = false) ∧
    (env.serialOk = true → env.logfileOk = true → env.ntripConnectOk = false →
      (startLogger env).ok = true ∧ (startLogger env).reachedLogging = true) := by
  constructor
  · intro h
    simp [startLogger, h]
  · intro h1 h2 h3
    simp [startLogger, h1, h2]

theorem c8_serial_fatal_ntrip_nonfatal_witness :
    ((startLogger c8envA).ok = false ∧ (startLogger c8envA).reachedLogging = false) ∧
    ((startLogger c8envB).ok = true ∧ (startLogger c8envB).reachedLogging = true) :=
  ⟨(c8_serial_fatal_ntrip_nonfatal c8envA).1 rfl,
   (c8_serial_fatal_ntrip_nonfatal c8envB).2 rfl rfl rfl⟩

/-- C9: a frame whose raw bytes arrive but whose payload fails to decode
is still appended byte-for-byte to the primary log, bumps the parse-error
counter (and the message and byte counters), leaves every field of the
previous DecodedFix snapshot unchanged, and the worker goes on to process
the remaining iterations. -/
theorem c9_parse_failure_resilient (s : LoggerState) (e : ReadEvent)
    (rest : List ReadEvent) (hr : e.raw ≠ []) (hp : e.parsed = none) :
    (readStep s e).logfile = s.logfile ++ e.raw ∧
    (readStep s e).parse_errors = s.parse_errors + 1 ∧
    (readStep s e).messages = s.messages + 1 ∧
    (readStep s e).bytes_logged = s.bytes_logged + e.raw.length ∧
    (readStep s e).last_fix_type = s.last_fix_type ∧
    (readStep s e).last_carr_soln = s.last_carr_soln ∧
    (readStep s e).last_num_sv = s.last_num_sv ∧
    (readStep s e).last_lat = s.last_lat ∧
    (readStep s e).last_lon = s.last_lon ∧
    (readStep s e).last_height = s.last_height ∧
    (readStep s e).time_offset = s.time_offset ∧
    processEvents s (e :: rest) = processEvents (readStep s e) rest := by
  refine ⟨?_, ?_, ?_, ?_, ?_, ?_, ?_, ?_, ?_, ?_, ?_, rfl⟩
  all_goals simp [readStep, hr, hp]

theorem c9_parse_failure_resilient_witness :
    (readStep initLoggerState c9ev).logfile = initLoggerState.logfile ++ c9ev.raw ∧
    (readStep initLoggerState c9ev).parse_errors = initLoggerState.parse_errors + 1 ∧
    (readStep initLoggerState c9ev).messages = initLoggerState.messages + 1 ∧
    (readStep initLoggerState c9ev).bytes_logged =
      initLoggerState.bytes_logged + c9ev.raw.length ∧
    (readStep initLoggerState c9ev).last_fix_type = initLoggerState.last_fix_type ∧
    (readStep initLoggerState c9ev).last_carr_soln = initLoggerState.last_carr_soln ∧
    (readStep initLoggerState c9ev).last_num_sv = initLoggerState.last_num_sv ∧
    (readStep initLoggerState c9ev).last_lat = initLoggerState.last_lat ∧
    (readStep initLoggerState c9ev).last_lon = initLoggerState.last_lon ∧
    (readStep initLoggerState c9ev).last_height = initLoggerState.last_height ∧
    (readStep initLoggerState c9ev).time_offset = initLoggerState.time_offset ∧
    processEvents initLoggerState (c9ev :: []) =
      processEvents (readStep initLoggerState c9ev) [] :=
  c9_parse_failure_resilient initLoggerState c9ev [] (by decide) rfl

/-! ### Validator lemmas -/

theorem processMessage_errors (st : VStats) (m : UBXMsg) :
    (processMessage st m).errors = st.errors := by
  cases m with
  | navPvt p =>
    rcases hc : calToEpoch p.year p.month p.day p.hour p.minute p.second with _ | ts <;>
      rcases hft : p.fixType with _ | ft <;>
      rcases hcs : p.carrSoln with _ | cs <;>
      simp only [processMessage, hc, hft, hcs] <;> split_ifs <;> first | rfl | simp_all
  | rxmRawx n =>
    simp only [processMessage]
    split_ifs <;> rfl
  | rxmSfrbx => rfl
  | navStatus => rfl
  | navSat => rfl
  | otherMsg s2 => rfl

theorem processMessage_warnings (st : VStats) (m : UBXMsg) :
    (processMessage st m).warnings = st.warnings := by
  cases m with
  | navPvt p =>
    rcases hc : calToEpoch p.year p.month p.day p.hour p.minute p.second with _ | ts <;>
      rcases hft : p.fixType with _ | ft <;>
      rcases hcs : p.carrSoln with _ | cs <;>
      simp only [processMessage, hc, hft, hcs] <;> split_ifs <;> first | rfl | simp_all
  | rxmRawx n =>
    simp only [processMessage]
    split_ifs <;> rfl
  | rxmSfrbx => rfl
  | navStatus => rfl
  | navSat => rfl
  | otherMsg s2 => rfl

theorem processMessage_rawx (st : VStats) (m : UBXMsg) :
    (processMessage st m).rxm_rawx_count =
      st.rxm_rawx_count + (if isRawx m then 1 else 0) := by
  cases m with
  | navPvt p =>
    rcases hc : calToEpoch p.year p.month p.day p.hour p.minute p.second with _ | ts <;>
      rcases hft : p.fixType with _ | ft <;>
      rcases hcs : p.carrSoln with _ | cs <;>
      simp only [processMessage, isRawx, hc, hft, hcs] <;> split_ifs <;> simp_all
  | rxmRawx n =>
    simp only [processMessage, isRawx]
    split_ifs <;> simp_all
  | rxmSfrbx => simp [processMessage, isRawx]
  | navStatus => simp [processMessage, isRawx]
  | navSat => simp [processMessage, isRawx]
  | otherMsg s2 => simp [processMessage, isRawx]

theorem processMessage_sfrbx (st : VStats) (m : UBXMsg) :
    (processMessage st m).rxm_sfrbx_count =
      st.rxm_sfrbx_count + (if isSfrbx m then 1 else 0) := by
  cases m with
  | navPvt p =>
    rcases hc : calToEpoch p.year p.month p.day p.hour p.minute p.second with _ | ts <;>
      rcases hft : p.fixType with _ | ft <;>
      rcases hcs : p.carrSoln with _ | cs <;>
      simp only [processMessage, isSfrbx, hc, hft, hcs] <;> split_ifs <;> simp_all
  | rxmRawx n =>
    simp only [processMessage, isSfrbx]
    split_ifs <;> simp_all
  | rxmSfrbx => simp [processMessage, isSfrbx]
  | navStatus => simp [processMessage, isSfrbx]
  | navSat => simp [processMessage, isSfrbx]
  | otherMsg s2 => simp [processMessage, isSfrbx]

theorem processMessage_pvtcount (st : VStats) (m : UBXMsg) :
    (processMessage st m).nav_pvt_count =
      st.nav_pvt_count + (if isPvt m then 1 else 0) := by
  cases m with
  | navPvt p =>
    rcases hc : calToEpoch p.year p.month p.day p.hour p.minute p.second with _ | ts <;>
      rcases hft : p.fixType with _ | ft <;>
      rcases hcs : p.carrSoln with _ | cs <;>
      simp only [processMessage, isPvt, hc, hft, hcs] <;> split_ifs <;> simp_all
  | rxmRawx n =>
    simp only [processMessage, isPvt]
    split_ifs <;> simp_all
  | rxmSfrbx => simp [processMessage, isPvt]
  | navStatus => simp [processMessage, isPvt]
  | navSat => simp [processMessage, isPvt]
  | otherMsg s2 => simp [processMessage, isPvt]

theorem processMessage_max (st : VStats) (m : UBXMsg) :
    (processMessage st m).max_satellites = Nat.max st.max_satellites (satContrib m) := by
  cases m with
  | navPvt p =>
    rcases hc : calToEpoch p.year p.month p.day p.hour p.minute p.second with _ | ts <;>
      rcases hft : p.fixType with _ | ft <;>
      rcases hcs : p.carrSoln with _ | cs <;>
      simp only [processMessage, satContrib, hc, hft, hcs] <;> split_ifs <;> simp_all <;> omega
  | rxmRawx n =>
    simp only [processMessage, satContrib]
    split_ifs <;> simp_all <;> omega
  | rxmSfrbx => simp [processMessage, satContrib]
  | navStatus => simp [processMessage, satContrib]
  | navSat => simp [processMessage, satContrib]
  | otherMsg s2 => simp [processMessage, satContrib]

theorem processMessage_ts_nonpvt (st : VStats) (m : UBXMsg) (h : isPvt m = false) :
    (processMessage st m).first_timestamp = st.first_timestamp ∧
    (processMessage st m).last_timestamp = st.last_timestamp := by
  cases m with
  | navPvt p => simp [isPvt] at h
  | rxmRawx n =>
    constructor <;> (simp only [processMessage]; split_ifs <;> rfl)
  | rxmSfrbx => exact ⟨rfl, rfl⟩
  | navStatus => exact ⟨rfl, rfl⟩
  | navSat => exact ⟨rfl, rfl⟩
  | otherMsg s2 => exact ⟨rfl, rfl⟩

theorem processMessage_ts_pvt (st : VStats) (p : PvtMsg) (t : Int)
    (hc : calToEpoch p.year p.month p.day p.hour p.minute p.second = some t) :
    (processMessage st (UBXMsg.navPvt p)).first_timestamp =
      some (st.first_timestamp.getD t) ∧
    (processMessage st (UBXMsg.navPvt p)).last_timestamp = some t := by
  rcases hft : p.fixType with _ | ft <;>
    rcases hcs : p.carrSoln with _ | cs <;>
    simp only [processMessage, hc, hft, hcs] <;> split_ifs <;> first | exact ⟨rfl, rfl⟩ | simp_all

theorem stepMsg_fields (st : VStats) (m : UBXMsg) :
    (stepMsg st m).errors = st.errors ∧
    (stepMsg st m).warnings = st.warnings ∧
    (stepMsg st m).rxm_rawx_count = st.rxm_rawx_count + (if isRawx m then 1 else 0) ∧
    (stepMsg st m).rxm_sfrbx_count = st.rxm_sfrbx_count + (if isSfrbx m then 1 else 0) ∧
    (stepMsg st m).nav_pvt_count = st.nav_pvt_count + (if isPvt m then 1 else 0) ∧
    (stepMsg st m).max_satellites = Nat.max st.max_satellites (satContrib m) :=
  ⟨processMessage_errors _ m, processMessage_warnings _ m, processMessage_rawx _ m,
   processMessage_sfrbx _ m, processMessage_pvtcount _ m, processMessage_max _ m⟩

theorem processFrom_errors (msgs : List UBXMsg) (st : VStats) :
    (processFrom st msgs).errors = st.errors := by
  induction msgs generalizing st with
  | nil => rfl
  | cons m t ih =>
    show (processFrom (stepMsg st m) t).errors = st.errors
    rw [ih]
    simp only [stepMsg]
    rw [processMessage_errors]

theorem processFrom_warnings (msgs : List UBXMsg) (st : VStats) :
    (processFrom st msgs).warnings = st.warnings := by
  induction msgs generalizing st with
  | nil => rfl
  | cons m t ih =>
    show (processFrom (stepMsg st m) t).warnings = st.warnings
    rw [ih]
    simp only [stepMsg]
    rw [processMessage_warnings]

theorem processFrom_rawx (msgs : List UBXMsg) (st : VStats) :
    (processFrom st msgs).rxm_rawx_count = st.rxm_rawx_count + countRawx msgs := by
  induction msgs generalizing st with
  | nil => simp [processFrom, countRawx]
  | cons m t ih =>
    show (processFrom (stepMsg st m) t).rxm_rawx_count = _
    rw [ih]
    simp only [stepMsg]
    rw [processMessage_rawx]
    simp only [countRawx, List.countP_cons]
    by_cases h : isRawx m <;> simp [h] <;> omega

theorem processFrom_sfrbx (msgs : List UBXMsg) (st : VStats) :
    (processFrom st msgs).rxm_sfrbx_count = st.rxm_sfrbx_count + countSfrbx msgs := by
  induction msgs generalizing st with
  | nil => simp [processFrom, countSfrbx]
  | cons m t ih =>
    show (processFrom (stepMsg st m) t).rxm_sfrbx_count = _
    rw [ih]
    simp only [stepMsg]
    rw [processMessage_sfrbx]
    simp only [countSfrbx, List.countP_cons]
    by_cases h : isSfrbx m <;> simp [h] <;> omega

theorem processFrom_pvtcount (msgs : List UBXMsg) (st : VStats) :
    (processFrom st msgs).nav_pvt_count = st.nav_pvt_count + countPvt msgs := by
  induction msgs generalizing st with
  | nil => simp [processFrom, countPvt]
  | cons m t ih =>
    show (processFrom (stepMsg st m) t).nav_pvt_count = _
    rw [ih]
    simp only [stepMsg]
    rw [processMessage_pvtcount]
    simp only [countPvt, List.countP_cons]
    by_cases h : isPvt m <;> simp [h] <;> omega

theorem processFrom_max (msgs : List UBXMsg) (st : VStats) :
    (processFrom st msgs).max_satellites =
      msgs.foldl (fun a m => Nat.max a (satContrib m)) st.max_satellites := by
  induction msgs generalizing st with
  | nil => rfl
  | cons m t ih =>
    show (processFrom (stepMsg st m) t).max_satellites = _
    rw [ih]
    simp only [stepMsg]
    rw [processMessage_max]
    rfl

theorem processFrom_ts_nonpvt (msgs : List UBXMsg) (st : VStats)
    (h : ∀ m ∈ msgs, isPvt m = false) :
    (processFrom st msgs).first_timestamp = st.first_timestamp ∧
    (processFrom st msgs).last_timestamp = st.last_timestamp := by
  induction msgs generalizing st with
  | nil => exact ⟨rfl, rfl⟩
  | cons m t ih =>
    have hm := processMessage_ts_nonpvt { st with total_messages := st.total_messages + 1 }
      m (h m (List.mem_cons_self m t))
    have ht := ih (stepMsg st m) (fun x hx => h x (List.mem_cons_of_mem m hx))
    exact ⟨ht.1.trans hm.1, ht.2.trans hm.2⟩

theorem checkRequired_eq (st : VStats) :
    checkRequired st = { st with errors := st.errors ++
      ((if st.rxm_rawx_count = 0 then [VIssue.noRawx] else []) ++
       (if st.rxm_sfrbx_count = 0 then [VIssue.noSfrbx] else [])) } := by
  simp only [checkRequired]
  split_ifs <;> simp

theorem checkRates_eq (st : VStats) :
    checkRates st = { st with warnings := st.warnings ++ rateWs st } := by
  obtain ⟨a, b, f, l, c, d, e, g, h, i, j, k, er, w⟩ := st
  rcases f with _ | fv <;> rcases l with _ | lv <;>
    simp only [checkRates, rateWs] <;> (try split_ifs) <;> simp

theorem checkSats_eq (st : VStats) :
    checkSats st = { st with warnings := st.warnings ++
      (if st.max_satellites < 5 then [VIssue.lowSatellites] else []) } := by
  simp only [checkSats]
  split_ifs <;> simp

theorem analyze_errors (st : VStats) :
    (analyze st).errors = st.errors ++
      ((if st.rxm_rawx_count = 0 then [VIssue.noRawx] else []) ++
       (if st.rxm_sfrbx_count = 0 then [VIssue.noSfrbx] else [])) := by
  rw [analyze, checkRequired_eq, checkRates_eq, checkSats_eq]

theorem analyze_warnings (st : VStats) :
    (analyze st).warnings = st.warnings ++ rateWs st ++
      (if st.max_satellites < 5 then [VIssue.lowSatellites] else []) := by
  rw [analyze, checkRequired_eq, checkRates_eq, checkSats_eq]
  have h1 : rateWs { st with errors := st.errors ++
      ((if st.rxm_rawx_count = 0 then [VIssue.noRawx] else []) ++
       (if st.rxm_sfrbx_count = 0 then [VIssue.noSfrbx] else [])) } = rateWs st := rfl
  rw [h1]

theorem processAll_errors (msgs : List UBXMsg) : (processAll msgs).errors = [] :=
  processFrom_errors msgs initVStats

theorem processAll_warnings (msgs : List UBXMsg) : (processAll msgs).warnings = [] :=
  processFrom_warnings msgs initVStats

theorem processAll_rawx (msgs : List UBXMsg) :
    (processAll msgs).rxm_rawx_count = countRawx msgs := by
  rw [processAll, processFrom_rawx]
  exact Nat.zero_add _

theorem processAll_sfrbx (msgs : List UBXMsg) :
    (processAll msgs).rxm_sfrbx_count = countSfrbx msgs := by
  rw [processAll, processFrom_sfrbx]
  exact Nat.zero_add _

theorem processAll_pvtcount (msgs : List UBXMsg) :
    (processAll msgs).nav_pvt_count = countPvt msgs := by
  rw [processAll, processFrom_pvtcount]
  exact Nat.zero_add _

theorem processAll_max (msgs : List UBXMsg) :
    (processAll msgs).max_satellites = maxSatObserved msgs := by
  rw [processAll, processFrom_max]
  rfl

theorem lowSat_not_rateWs (st : VStats) : VIssue.lowSatellites ∉ rateWs st := by
  rcases hf : st.first_timestamp with _ | f <;> rcases hl : st.last_timestamp with _ | l <;>
    simp only [rateWs, hf, hl] <;> (try split_ifs) <;> simp

theorem countP_replicate {α : Type} (p : α → Bool) (n : Nat) (a : α) :
    List.countP p (List.replicate n a) = if p a then n else 0 := by
  induction n with
  | zero => simp
  | succ k ih =>
    rw [List.replicate_succ, List.countP_cons, ih]
    split_ifs <;> simp

theorem c6_counts :
    (processAll c6msgs).rxm_rawx_count = 700 ∧
    (processAll c6msgs).rxm_sfrbx_count = 1 ∧
    (processAll c6msgs).nav_pvt_count = 2 := by
  refine ⟨?_, ?_, ?_⟩
  · rw [processAll_rawx, c6msgs, countRawx, List.countP_cons, List.countP_append,
      countP_replicate]
    simp only [isRawx, pvtAt, List.countP_cons, List.countP_nil]
    norm_num
  · rw [processAll_sfrbx, c6msgs, countSfrbx, List.countP_cons, List.countP_append,
      countP_replicate]
    simp only [isSfrbx, pvtAt, List.countP_cons, List.countP_nil]
    norm_num
  · rw [processAll_pvtcount, c6msgs, countPvt, List.countP_cons, List.countP_append,
      countP_replicate]
    simp only [isPvt, pvtAt, List.countP_cons, List.countP_nil]
    norm_num

theorem processFrom_nil (st : VStats) : processFrom st [] = st := rfl

theorem processFrom_cons (st : VStats) (m : UBXMsg) (t : List UBXMsg) :
    processFrom st (m :: t) = processFrom (stepMsg st m) t := rfl

theorem processFrom_append (st : VStats) (l1 l2 : List UBXMsg) :
    processFrom st (l1 ++ l2) = processFrom (processFrom st l1) l2 := by
  simp only [processFrom]
  exact List.foldl_append _ _ _ _

theorem stepMsg_ts_pvt (st : VStats) (p : PvtMsg) (t : Int)
    (hc : calToEpoch p.year p.month p.day p.hour p.minute p.second = some t) :
    (stepMsg st (UBXMsg.navPvt p)).first_timestamp = some (st.first_timestamp.getD t) ∧
    (stepMsg st (UBXMsg.navPvt p)).last_timestamp = some t := by
  have h := processMessage_ts_pvt
    { st with total_messages := st.total_messages + 1 } p t hc
  exact ⟨h.1, h.2⟩

theorem c6_timestamps :
    (processAll c6msgs).first_timestamp = some 0 ∧
    (processAll c6msgs).last_timestamp = some 100 := by
  have h0 : calToEpoch 1970 1 1 0 0 0 = some 0 := by decide
  have h100 : calToEpoch 1970 1 1 0 1 40 = some 100 := by decide
  have hp0 : pvtAt 0 8 = UBXMsg.navPvt
      { year := 1970, month := 1, day := 1, hour := 0, minute := 0, second := 0,
        fixType := some 3, carrSoln := some 0, numSV := 8 } := rfl
  have hp100 : pvtAt 100 8 = UBXMsg.navPvt
      { year := 1970, month := 1, day := 1, hour := 0, minute := 1, second := 40,
        fixType := some 3, carrSoln := some 0, numSV := 8 } := rfl
  have hshape : c6msgs = pvtAt 0 8 ::
      ((List.replicate 700 (UBXMsg.rxmRawx 8) ++ [UBXMsg.rxmSfrbx]) ++ [pvtAt 100 8]) := by
    rw [c6msgs, List.append_assoc]
    rw [show ([UBXMsg.rxmSfrbx] ++ [pvtAt 100 8] : List UBXMsg) =
      [UBXMsg.rxmSfrbx, pvtAt 100 8] from rfl]
  have hmid : ∀ m ∈ List.replicate 700 (UBXMsg.rxmRawx 8) ++ [UBXMsg.rxmSfrbx],
      isPvt m = false := by
    intro m hm
    rcases List.mem_append.mp hm with h | h
    · rw [List.eq_of_mem_replicate h]
      rfl
    · rw [List.mem_singleton.mp h]
      rfl
  rw [processAll, hshape, processFrom_cons, processFrom_append, processFrom_cons,
    processFrom_nil, hp0, hp100]
  set st1 := stepMsg initVStats (UBXMsg.navPvt
    { year := 1970, month := 1, day := 1, hour := 0, minute := 0, second := 0,
      fixType := some 3, carrSoln := some 0, numSV := 8 }) with hst1def
  have h1 := stepMsg_ts_pvt initVStats
    { year := 1970, month := 1, day := 1, hour := 0, minute := 0, second := 0,
      fixType := some 3, carrSoln := some 0, numSV := 8 } 0 h0
  have h1f : st1.first_timestamp = some 0 := h1.1
  have h1l : st1.last_timestamp = some 0 := h1.2
  have hmidrun := processFrom_ts_nonpvt
    (List.replicate 700 (UBXMsg.rxmRawx 8) ++ [UBXMsg.rxmSfrbx]) st1 hmid
  set st2 := processFrom st1 (List.replicate 700 (UBXMsg.rxmRawx 8) ++ [UBXMsg.rxmSfrbx])
    with hst2def
  have h2f : st2.first_timestamp = some 0 := hmidrun.1.trans h1f
  have h2l : st2.last_timestamp = some 0 := hmidrun.2.trans h1l
  have hfin := stepMsg_ts_pvt st2
    { year := 1970, month := 1, day := 1, hour := 0, minute := 1, second := 40,
      fixType := some 3, carrSoln := some 0, numSV := 8 } 100 h100
  refine ⟨?_, hfin.2⟩
  rw [hfin.1, h2f]
  rfl

/-- C2: the verdict of the validator on a completed pass is True exactly when
the accumulated error list is empty; warnings never change the verdict;
and the process exit code is 0 exactly when the verdict passed. -/
theorem c2_verdict_and_exit (msgs : List UBXMsg) (sz : Nat) (st : VStats)
    (w : List VIssue) (o : VOutcome) (h : 0 < sz) :
    validateResult (runValidate true sz msgs false) =
      (analyze (processAll msgs)).errors.isEmpty ∧
    validateResult (VOutcome.completed { st with warnings := w }) =
      validateResult (VOutcome.completed st) ∧
    (exitCode (validateResult o) = 0 ↔ validateResult o = true) := by
  refine ⟨?_, rfl, ?_⟩
  · simp [runValidate, Nat.pos_iff_ne_zero.mp h, validateResult]
  · cases hb : validateResult o <;> simp [exitCode, hb]

theorem c2_verdict_and_exit_witness :
    validateResult (runValidate true 1 [] false) =
      (analyze (processAll [])).errors.isEmpty ∧
    validateResult (VOutcome.completed
      { initVStats with warnings := [VIssue.lowSatellites] }) =
      validateResult (VOutcome.completed initVStats) ∧
    (exitCode (validateResult VOutcome.parseFail) = 0 ↔
      validateResult VOutcome.parseFail = true) :=
  c2_verdict_and_exit [] 1 initVStats [VIssue.lowSatellites] VOutcome.parseFail
    (by decide)

/-- C3: the raw-measurement error is emitted exactly when the log has zero
RXM-RAWX frames, and the ephemeris error exactly when it has zero
RXM-SFRBX frames, independently; the synthetic log with zero RXM-RAWX and
five RXM-SFRBX frames fails validation with exactly the raw-measurement
error. -/
theorem c3_required_type_errors (msgs : List UBXMsg) :
    (VIssue.noRawx ∈ (analyze (processAll msgs)).errors ↔ countRawx msgs = 0) ∧
    (VIssue.noSfrbx ∈ (analyze (processAll msgs)).errors ↔ countSfrbx msgs = 0) ∧
    (analyze (processAll c3msgs)).errors = [VIssue.noRawx] ∧
    validateResult (runValidate true 1 c3msgs false) = false := by
  refine ⟨?_, ?_, by decide, by decide⟩ <;>
    by_cases hr : countRawx msgs = 0 <;> by_cases hs : countSfrbx msgs = 0 <;>
    simp [analyze_errors, processAll_errors, processAll_rawx, processAll_sfrbx, hr, hs]

/-- C5 counterexample: a log whose NAV-PVT satellite high-water mark is 3
(below 5) but which contains an RXM-RAWX frame with 10 measurements gets
no low-satellite warning, because the validator folds RXM-RAWX measurement
counts into the same high-water mark. -/
theorem c5_counterexample :
    maxSatFromNavPvt c5msgs < 5 ∧ (analyze (processAll c5msgs)).warnings = [] := by
  constructor <;> decide

/-- C5 (amended): the satellite high-water mark is tracked from NAV-PVT
satellite counts and RXM-RAWX measurement counts together, and the
low-satellite warning is emitted exactly when that combined mark is below
5. -/
theorem c5_low_satellite_warning (msgs : List UBXMsg) :
    (processAll msgs).max_satellites = maxSatObserved msgs ∧
    (VIssue.lowSatellites ∈ (analyze (processAll msgs)).warnings ↔
      (processAll msgs).max_satellites < 5) := by
  refine ⟨processAll_max msgs, ?_⟩
  by_cases hS : (processAll msgs).max_satellites < 5 <;>
    simp [analyze_warnings, processAll_warnings, hS, lowSat_not_rateWs]

/-- C6: with timestamped navigation frames spanning a positive duration,
the NAV-PVT and RXM-RAWX rate warnings are emitted exactly when the
respective count divided by the duration is below 9.5 Hz; errors are only
ever the two required-type errors; and the 700-RXM-RAWX / 100-second
example log is still valid and carries the RXM-RAWX rate warning. -/
theorem c6_rate_warnings (msgs : List UBXMsg) (f l : Int)
    (h1 : (processAll msgs).first_timestamp = some f)
    (h2 : (processAll msgs).last_timestamp = some l)
    (h3 : 0 < l - f) :
    (VIssue.navPvtRateLow ∈ (analyze (processAll msgs)).warnings ↔
      ((processAll msgs).nav_pvt_count : ℚ) / ((l - f : Int) : ℚ) < 19 / 2) ∧
    (VIssue.rxmRawxRateLow ∈ (analyze (processAll msgs)).warnings ↔
      ((processAll msgs).rxm_rawx_count : ℚ) / ((l - f : Int) : ℚ) < 19 / 2) ∧
    ((analyze (processAll msgs)).errors.all
      (fun e => decide (e = VIssue.noRawx) || decide (e = VIssue.noSfrbx)) = true) ∧
    validateResult (runValidate true 1 c6msgs false) = true ∧
    VIssue.rxmRawxRateLow ∈ (analyze (processAll c6msgs)).warnings := by
  have hex : (analyze (processAll c6msgs)).errors = [] := by
    rw [analyze_errors, processAll_errors, c6_counts.1, c6_counts.2.1]
    norm_num
  have hex2 : VIssue.rxmRawxRateLow ∈ (analyze (processAll c6msgs)).warnings := by
    rw [analyze_warnings, processAll_warnings]
    have hr : VIssue.rxmRawxRateLow ∈ rateWs (processAll c6msgs) := by
      rw [rateWs, c6_timestamps.1, c6_timestamps.2, c6_counts.1, c6_counts.2.2]
      norm_num
    simp [hr]
  refine ⟨?_, ?_, ?_, ?_, hex2⟩
  · by_cases hA : ((processAll msgs).nav_pvt_count : ℚ) / ((l - f : Int) : ℚ) < 19 / 2 <;>
      by_cases hB : ((processAll msgs).rxm_rawx_count : ℚ) / ((l - f : Int) : ℚ) < 19 / 2 <;>
      by_cases hS : (processAll msgs).max_satellites < 5 <;>
      simp [analyze_warnings, processAll_warnings, rateWs, h1, h2, h3, hA, hB, hS]
  · by_cases hA : ((processAll msgs).nav_pvt_count : ℚ) / ((l - f : Int) : ℚ) < 19 / 2 <;>
      by_cases hB : ((processAll msgs).rxm_rawx_count : ℚ) / ((l - f : Int) : ℚ) < 19 / 2 <;>
      by_cases hS : (processAll msgs).max_satellites < 5 <;>
      simp [analyze_warnings, processAll_warnings, rateWs, h1, h2, h3, hA, hB, hS]
  · rw [analyze_errors, processAll_errors]
    split_ifs <;> decide
  · have : runValidate true 1 c6msgs false = VOutcome.completed (analyze (processAll c6msgs)) := by
      simp [runValidate]
    rw [this]
    show (analyze (processAll c6msgs)).errors.isEmpty = true
    rw [hex]
    rfl

theorem c6_rate_warnings_witness :
    (processAll c6small).first_timestamp = some 0 ∧
    (processAll c6small).last_timestamp = some 10 ∧
    (0:Int) < 10 - 0 ∧
    ((VIssue.navPvtRateLow ∈ (analyze (processAll c6small)).warnings ↔
      ((processAll c6small).nav_pvt_count : ℚ) / ((10 - 0 : Int) : ℚ) < 19 / 2) ∧
    (VIssue.rxmRawxRateLow ∈ (analyze (processAll c6small)).warnings ↔
      ((processAll c6small).rxm_rawx_count : ℚ) / ((10 - 0 : Int) : ℚ) < 19 / 2) ∧
    ((analyze (processAll c6small)).errors.all
      (fun e => decide (e = VIssue.noRawx) || decide (e = VIssue.noSfrbx)) = true) ∧
    validateResult (runValidate true 1 c6msgs false) = true ∧
    VIssue.rxmRawxRateLow ∈ (analyze (processAll c6msgs)).warnings) :=
  ⟨by decide, by decide, by decide,
   c6_rate_warnings c6small 0 10 (by decide) (by decide) (by decide)⟩

/-- C10: when the codec raises an exception partway through the replay,
the validator abandons the pass with no ValidationReport and the process
exits non-zero, regardless of the messages already processed. -/
theorem c10_parse_exception_fails (sz : Nat) (msgs : List UBXMsg) (r : VStats)
    (h : 0 < sz) :
    runValidate true sz msgs true = VOutcome.parseFail ∧
    runValidate true sz msgs true ≠ VOutcome.completed r ∧
    validateResult (runValidate true sz msgs true) = false ∧
    exitCode (validateResult (runValidate true sz msgs true)) = 1 := by
  have h1 : runValidate true sz msgs true = VOutcome.parseFail := by
    simp [runValidate, Nat.pos_iff_ne_zero.mp h]
  refine ⟨h1, by rw [h1]; simp, by rw [h1]; rfl, by rw [h1]; rfl⟩

theorem c10_parse_exception_fails_witness :
    runValidate true 1 [UBXMsg.rxmRawx 8, UBXMsg.rxmSfrbx] true = VOutcome.parseFail ∧
    runValidate true 1 [UBXMsg.rxmRawx 8, UBXMsg.rxmSfrbx] true ≠
      VOutcome.completed initVStats ∧
    validateResult (runValidate true 1 [UBXMsg.rxmRawx 8, UBXMsg.rxmSfrbx] true) = false ∧
    exitCode (validateResult
      (runValidate true 1 [UBXMsg.rxmRawx 8, UBXMsg.rxmSfrbx] true)) = 1 :=
  c10_parse_exception_fails 1 [UBXMsg.rxmRawx 8, UBXMsg.rxmSfrbx] initVStats (by decide)
